import Mathlib

/-!
Verification of the authentication and authorization core of the
TheInnerCircle membership-gated message board.

The definitions below are a shallow embedding, translated directly from
the Express route handlers in `src/index.js` and the auth router
(`src/unnamed/part_000`, the `routes/auth.js` file of the repository).
Strings are Lean `String`; the database is an explicit record of user
and message lists threaded through the handlers; the bcrypt comparison
primitive is an explicit function parameter; fallible or branching
handlers return inductive result types mirroring the HTTP responses
(render / redirect / 403 / flash message).
-/

namespace TheInnerCircle

/-- A row of the `users` table (schema fields used by the handlers):
`id`, `first_name`, `last_name`, `username`, `email`, `password`
(the bcrypt hash), `is_admin`, `is_member`. -/
structure User where
  id : Nat
  first_name : String
  last_name : String
  username : String
  email : String
  password : String
  is_admin : Bool
  is_member : Bool
  deriving Repr, DecidableEq

/-- A row of the `messages` table: `id`, `title`, `content`,
`author_id` (foreign key to `users.id`), `created_at`. -/
structure Message where
  id : Nat
  title : String
  content : String
  author_id : Nat
  created_at : Nat
  deriving Repr, DecidableEq

/-- The relational store visible to the handlers: the two tables plus
the autoincrement counters Prisma maintains for their `id` columns. -/
structure DB where
  users : List User
  messages : List Message
  nextUserId : Nat
  nextMessageId : Nat
  deriving Repr, DecidableEq

/-- Process-wide environment configuration consumed by the handlers:
`ADMIN_SECRET_CODE` and `MEMBER_SECRET_CODE`. -/
structure Config where
  adminSecretCode : String
  memberSecretCode : String
  deriving Repr, DecidableEq

/-! ### The login credential lookup (LocalStrategy, routes/auth.js) -/

/-- `prisma.user.findFirst({ where: { OR: [{ username }, { email }] } })`:
the first user whose username or email equals the identifier. -/
def findUserByIdentifier (users : List User) (ident : String) : Option User :=
  users.find? (fun u => u.username == ident || u.email == ident)

/-- Outcome of the passport LocalStrategy verify callback: either
`done(null, false, { message })` or `done(null, user)`. -/
inductive VerifyResult where
  | failure (message : String)
  | success (user : User)
  deriving Repr, DecidableEq

/-- The LocalStrategy verify callback: look the identifier up as
username-or-email; report `"User not found"` when no row matches,
`"Invalid password"` when `bcrypt.compare` rejects, and the user row
on success.  `compare` is the bcrypt comparison primitive
(`compare plaintext hash`). -/
def localVerify (compare : String → String → Bool) (users : List User)
    (username password : String) : VerifyResult :=
  match findUserByIdentifier users username with
  | none => .failure "User not found"
  | some user =>
      if compare password user.password then .success user
      else .failure "Invalid password"

/-! ### The POST /login handler -/

/-- The whitespace class trimmed by JavaScript / validator.js `trim`:
tab, line feed, vertical tab, form feed, carriage return, space. -/
def jsWhitespace (c : Char) : Bool :=
  c.toNat = 9 || c.toNat = 10 || c.toNat = 11 || c.toNat = 12 ||
  c.toNat = 13 || c.toNat = 32

/-- JavaScript `String.prototype.trim` / the express-validator `.trim()`
sanitizer: strip leading and trailing whitespace. -/
def jsTrim (s : String) : String :=
  String.mk (((s.toList.dropWhile jsWhitespace).reverse.dropWhile jsWhitespace).reverse)

/-- validator.js `escape` applied to one character: `&`, `"`, the
apostrophe, `<`, `>`, `/`, `\` and the backtick become HTML entities,
every other character maps to itself.  (The apostrophe and backtick are
written via their code points 39 and 96.) -/
def escapeChar (c : Char) : List Char :=
  if c = Char.ofNat 38 then String.toList "&amp;"
  else if c = Char.ofNat 34 then String.toList "&quot;"
  else if c = Char.ofNat 39 then String.toList "&#x27;"
  else if c = Char.ofNat 60 then String.toList "&lt;"
  else if c = Char.ofNat 62 then String.toList "&gt;"
  else if c = Char.ofNat 47 then String.toList "&#x2F;"
  else if c = Char.ofNat 92 then String.toList "&#x5C;"
  else if c = Char.ofNat 96 then String.toList "&#96;"
  else [c]

/-- validator.js `escape` on a whole string (the express-validator
`.escape()` sanitizer). -/
def escapeHtml (s : String) : String :=
  String.mk ((s.toList.map escapeChar).flatten)

/-- The express-validator chain on POST /login collects these
field-level violations in declaration order: the trimmed username must
be nonempty, the (untrimmed) password must be nonempty. -/
def loginValidationErrors (rawUsername rawPassword : String) : List String :=
  (if jsTrim rawUsername = "" then ["Username or email is required"] else []) ++
  (if rawPassword = "" then ["Password is required"] else [])

/-- Outcome of POST /login as seen by the client: a redirect to /login
carrying a flash error (validation failure or authentication failure),
or a session login plus redirect to /messages. -/
inductive LoginResult where
  | validationError (flash : String)
  | flashError (flash : String)
  | success (user : User)
  deriving Repr, DecidableEq

/-- POST /login: run the validators (which also sanitize
`req.body.username` with `.trim().escape()` in place), joining the
violation messages with `". "` on failure; otherwise authenticate via
the LocalStrategy on the sanitized username, flashing `info.message`
when no user is produced. -/
def postLogin (compare : String → String → Bool) (users : List User)
    (rawUsername rawPassword : String) : LoginResult :=
  let errs := loginValidationErrors rawUsername rawPassword
  if errs.isEmpty then
    match localVerify compare users (escapeHtml (jsTrim rawUsername)) rawPassword with
    | .failure m => .flashError m
    | .success u => .success u
  else
    .validationError (String.intercalate ". " errs)

/-! ### GET /get-the-code (src/index.js) -/

/-- The rendered get-the-code page: the template receives the title and
`memberCode: process.env.MEMBER_SECRET_CODE`. -/
structure GetTheCodePage where
  title : String
  memberCode : String
  deriving Repr, DecidableEq

/-- GET /get-the-code: the route is registered with no middleware, so
it renders the page for any principal (`none` = anonymous request). -/
def getTheCodeHandler (cfg : Config) (_principal : Option User) : GetTheCodePage :=
  { title := "Get the Code", memberCode := cfg.memberSecretCode }

/-! ### create-message (src/index.js) -/

/-- JavaScript falsiness of an optional request-body string field:
`!v` holds when the field is absent (`undefined`) or the empty string. -/
def jsFalsy : Option String → Bool
  | none => true
  | some s => s == ""

/-- Outcome of GET /create-message. -/
inductive GetCreateMessageResult where
  | redirectLogin
  | redirectBecomeMember (flash : String)
  | renderForm
  deriving Repr, DecidableEq

/-- GET /create-message: `ensureLoggedIn` redirects anonymous requests
to /login; a non-member is redirected to /become-member with a flash
message; a member gets the form. -/
def getCreateMessage (principal : Option User) : GetCreateMessageResult :=
  match principal with
  | none => .redirectLogin
  | some u =>
      if !u.is_member then
        .redirectBecomeMember "You need to become a member first to create messages."
      else .renderForm

/-- Outcome of POST /create-message. -/
inductive CreateMessageResult where
  | redirectLogin
  | forbidden (body : String)
  | renderError (error : String)
  | success (db : DB)
  deriving Repr, DecidableEq

/-- POST /create-message: `ensureLoggedIn`, then a 403 for non-members,
then the basic validation `if (!title || !text)` on the raw body
fields, then `prisma.message.create` with the trimmed title and text
and `author_id: req.user.id` (`created_at` defaults to now). -/
def postCreateMessage (db : DB) (principal : Option User)
    (title text : Option String) (now : Nat) : CreateMessageResult :=
  match principal with
  | none => .redirectLogin
  | some user =>
      if !user.is_member then .forbidden "Only members can create messages."
      else if jsFalsy title || jsFalsy text then
        .renderError "Both title and message content are required."
      else
        .success { db with
          messages := db.messages ++
            [{ id := db.nextMessageId, title := jsTrim (title.getD ""),
               content := jsTrim (text.getD ""), author_id := user.id,
               created_at := now }],
          nextMessageId := db.nextMessageId + 1 }

/-! ### POST /register (routes/auth.js) -/

/-- The validated and sanitized registration body fields, as they stand
after the express-validator chain has run (names and username trimmed,
email normalized, password checked).  `admin_code` is the raw optional
body field. -/
structure RegisterFields where
  first_name : String
  last_name : String
  username : String
  email : String
  password : String
  admin_code : Option String
  deriving Repr, DecidableEq

/-- Outcome of POST /register after validation has passed. -/
inductive RegisterResult where
  | conflict (flash : String)
  | success
  deriving Repr, DecidableEq

/-- `prisma.user.findFirst({ where: { OR: [{ username }, { email }] } })`
existence check of POST /register: some user already has this username
or this email. -/
def userExists (users : List User) (username email : String) : Bool :=
  users.any (fun u => u.username == username || u.email == email)

/-- POST /register (after the validator chain passed): fail with the
conflict flash and an unchanged store when the trimmed username or
email collides with an existing user; otherwise create the user with
`is_admin = (admin_code === ADMIN_SECRET_CODE)` and
`is_member = is_admin`, storing `hash password` (bcrypt, 10 rounds). -/
def register (cfg : Config) (hash : String → String) (db : DB)
    (f : RegisterFields) : RegisterResult × DB :=
  if userExists db.users (jsTrim f.username) (jsTrim f.email) then
    (.conflict "Username or email already exists. Please choose different ones.", db)
  else
    let isAdmin := f.admin_code == some cfg.adminSecretCode
    (.success,
     { db with
       users := db.users ++
         [{ id := db.nextUserId, first_name := jsTrim f.first_name,
            last_name := jsTrim f.last_name, username := (jsTrim f.username),
            email := (jsTrim f.email), password := hash f.password,
            is_admin := isAdmin, is_member := isAdmin }],
       nextUserId := db.nextUserId + 1 })

/-! ### POST /become-member (routes/auth.js) -/

/-- Outcome of POST /become-member (for a logged-in principal). -/
inductive PromoteResult where
  | validationError (flash : String)
  | incorrectCode (flash : String)
  | success
  deriving Repr, DecidableEq

/-- `prisma.user.update({ where: { id }, data: { is_member: true } })`:
set `is_member` on the row with the given id. -/
def setMemberTrue (users : List User) (uid : Nat) : List User :=
  users.map (fun u => if u.id == uid then { u with is_member := true } else u)

/-- POST /become-member, for a logged-in principal `user`
(`ensureLoggedIn` has already passed).  The validator chain
`body("secret_code").trim().isLength({ min: 1 })` trims the field in
place and rejects when it is then empty (or absent); the handler then
compares the (trimmed) `secret_code` to `MEMBER_SECRET_CODE` with `!==`
and on match sets `is_member = true` on the user's row and on the
in-flight session principal.  Returns the outcome, the updated store,
and the updated request principal. -/
def becomeMember (cfg : Config) (db : DB) (user : User)
    (secret_code : Option String) : PromoteResult × DB × User :=
  match secret_code with
  | none => (.validationError "Passcode is required", db, user)
  | some raw =>
      let code := jsTrim raw
      if code = "" then (.validationError "Passcode is required", db, user)
      else if code ≠ cfg.memberSecretCode then
        (.incorrectCode "Incorrect passcode. Please try again.", db, user)
      else
        (.success, { db with users := setMemberTrue db.users user.id },
         { user with is_member := true })

/-! ### POST /delete-message/:id (routes/auth.js) -/

/-- Leading decimal digits of a character list: the parsed value, or
`none` when the first character is not a digit (`parseInt` yields
`NaN`). -/
def leadingDigits : List Char → Option Nat
  | c :: cs =>
      if c.isDigit then
        some (cs.takeWhile Char.isDigit |>.foldl
          (fun n d => 10 * n + (d.toNat - 48)) (c.toNat - 48))
      else none
  | [] => none

/-- JavaScript `parseInt(s, 10)`: skip leading whitespace, accept an
optional sign, then parse leading decimal digits; `NaN` (here `none`)
when no digit follows. -/
def parseIntJS (s : String) : Option Int :=
  match s.toList.dropWhile Char.isWhitespace with
  | c :: cs =>
      if c = Char.ofNat 45 then (leadingDigits cs).map (fun n => -(n : Int))
      else if c = Char.ofNat 43 then (leadingDigits cs).map (fun n => (n : Int))
      else (leadingDigits (c :: cs)).map (fun n => (n : Int))
  | [] => none

/-- Outcome of POST /delete-message/:id. -/
inductive DeleteMessageResult where
  | redirectLogin
  | forbidden (body : String)
  | flashInvalidId (flash : String)
  | deleted (db : DB)
  | flashDeleteError (flash : String)
  deriving Repr, DecidableEq

/-- POST /delete-message/:id: `ensureLoggedIn`, then a 403 for
non-admins; `parseInt(req.params.id, 10)`, and a flash-plus-redirect
when it is `NaN`; `prisma.message.delete` then removes the row, or
throws (record not found) when no message has that id — the catch block
turns the throw into a flash-plus-redirect. -/
def deleteMessage (db : DB) (principal : Option User)
    (idParam : String) : DeleteMessageResult :=
  match principal with
  | none => .redirectLogin
  | some u =>
      if !u.is_admin then .forbidden "You are not authorized to delete messages."
      else
        match parseIntJS idParam with
        | none => .flashInvalidId "Invalid message ID."
        | some mid =>
            if db.messages.any (fun m => (m.id : Int) == mid) then
              .deleted { db with
                messages := db.messages.filter (fun m => !((m.id : Int) == mid)) }
            else .flashDeleteError "Error deleting message."

/-! ### Concrete fixtures for witnesses and counterexamples -/

/-- A demo bcrypt stand-in: hashing tags the plaintext. -/
def hashDemo (p : String) : String := String.append "bcrypt$" p

/-- The comparison primitive matching `hashDemo`: `compare p h` holds
exactly when `h` is the demo hash of `p`. -/
def compareDemo (p h : String) : Bool := hashDemo p == h

def alice : User :=
  { id := 1, first_name := "Alice", last_name := "Smith",
    username := "alice", email := "alice@x.com",
    password := hashDemo "Secret1", is_admin := false, is_member := true }

def bob : User :=
  { id := 2, first_name := "Bob", last_name := "Jones",
    username := "bob", email := "bob@x.com",
    password := hashDemo "Pass1", is_admin := false, is_member := false }

def carol : User :=
  { id := 3, first_name := "Carol", last_name := "Reed",
    username := "carol", email := "carol@x.com",
    password := hashDemo "Admin1", is_admin := true, is_member := true }

def db0 : DB :=
  { users := [alice, bob, carol], messages := [],
    nextUserId := 4, nextMessageId := 1 }

def cfg0 : Config := { adminSecretCode := "ADMIN", memberSecretCode := "CODE" }

/-- A registration attempt reusing alice's username. -/
def fDup : RegisterFields :=
  { first_name := "New", last_name := "Person", username := "alice",
    email := "new@x.com", password := "Abcdef1", admin_code := none }

/-- A registration attempt supplying the admin bootstrap code. -/
def fAdmin : RegisterFields :=
  { first_name := "New", last_name := "Person", username := "newbie",
    email := "new@x.com", password := "Abcdef1", admin_code := some "ADMIN" }

/-- The HTML-special characters named by the sanitizer discussion:
`&`, `<`, `>`, the apostrophe, and the double quote (code points
38, 60, 62, 39, 34). -/
def isHtmlSpecial (c : Char) : Bool :=
  c == Char.ofNat 38 || c == Char.ofNat 60 || c == Char.ofNat 62 ||
  c == Char.ofNat 39 || c == Char.ofNat 34

/-- The admin-implies-member invariant over the user table. -/
def adminImpliesMember (db : DB) : Prop :=
  ∀ u ∈ db.users, u.is_admin = true → u.is_member = true

/-! ### Helper lemmas -/

theorem jsFalsy_eq_true (o : Option String) :
    jsFalsy o = true ↔ o = none ∨ o = some "" := by
  cases o <;> simp [jsFalsy]

theorem setMember_self (u : User) (h : u.is_member = true) :
    { u with is_member := true } = u := by
  cases u
  simp_all

theorem setMemberTrue_noop (us : List User) (uid : Nat)
    (h : ∀ u ∈ us, u.id = uid → u.is_member = true) :
    setMemberTrue us uid = us := by
  unfold setMemberTrue
  induction us with
  | nil => rfl
  | cons a l ih =>
      simp only [List.map_cons]
      have ha := h a (by simp)
      have hh : (if (a.id == uid) = true then { a with is_member := true } else a) = a := by
        by_cases hid : a.id = uid
        · rw [if_pos (by simp [hid])]
          exact setMember_self a (ha hid)
        · rw [if_neg (by simp [hid])]
      rw [hh, ih (fun u hu => h u (by simp [hu]))]

theorem becomeMember_success_eq (cfg : Config) (db : DB) (user : User)
    (raw : String) (h1 : jsTrim raw ≠ "")
    (h2 : jsTrim raw = cfg.memberSecretCode) :
    becomeMember cfg db user (some raw) =
      (.success, { db with users := setMemberTrue db.users user.id },
       { user with is_member := true }) := by
  simp only [becomeMember]
  rw [if_neg h1, if_neg (by simp [h2])]

theorem escapeChar_length_pos (c : Char) : 1 ≤ (escapeChar c).length := by
  unfold escapeChar
  split_ifs <;> simp

theorem escapeChar_special_length (c : Char) (h : isHtmlSpecial c = true) :
    2 ≤ (escapeChar c).length := by
  simp only [isHtmlSpecial, Bool.or_eq_true, beq_iff_eq] at h
  obtain ((((h | h) | h) | h) | h) := h <;> subst h <;> decide

theorem escape_flatten_length (l : List Char) :
    l.length ≤ ((l.map escapeChar).flatten).length := by
  induction l with
  | nil => simp
  | cons a l ih =>
      simp only [List.map_cons, List.flatten_cons, List.length_append, List.length_cons]
      have := escapeChar_length_pos a
      omega

theorem escape_flatten_length_lt (l : List Char) (c : Char)
    (hc : c ∈ l) (hs : isHtmlSpecial c = true) :
    l.length < ((l.map escapeChar).flatten).length := by
  induction l with
  | nil => cases hc
  | cons a l ih =>
      simp only [List.map_cons, List.flatten_cons, List.length_append, List.length_cons]
      rcases List.mem_cons.mp hc with rfl | hmem
      · have h2 := escapeChar_special_length c hs
        have h3 := escape_flatten_length l
        omega
      · have h1 := escapeChar_length_pos a
        have h4 := ih hmem
        omega

theorem escapeHtml_ne (s : String) (c : Char) (hc : c ∈ s.toList)
    (hs : isHtmlSpecial c = true) : escapeHtml s ≠ s := by
  intro h
  have hdata : (s.toList.map escapeChar).flatten = s.toList := congrArg String.data h
  have hlen : ((s.toList.map escapeChar).flatten).length = s.toList.length := by
    rw [hdata]
  have := escape_flatten_length_lt s.toList c hc hs
  omega

/-! ### Claim C1 -/

/-- Claim C1 (counterexample): the two login failure modes are NOT
reported identically.  With the demo user table, an unknown identifier
flashes `"User not found"` while a known identifier with a wrong
password flashes `"Invalid password"` — two distinct caller-facing
messages, so the cases are distinguishable. -/
theorem login_enumeration_cex :
    postLogin compareDemo db0.users "ghost" "x" = .flashError "User not found" ∧
    postLogin compareDemo db0.users "alice" "wrong" = .flashError "Invalid password" ∧
    ("User not found" : String) ≠ "Invalid password" := by
  refine ⟨?_, ?_, by decide⟩ <;> rfl

/-- Claim C1 (amended): the POST /login handler flashes the
LocalStrategy's `info.message` verbatim, so a nonexistent identifier
yields the flash `"User not found"` while a wrong password for an
existing identifier yields the distinct flash `"Invalid password"`:
the two failure cases are distinguishable to the caller-facing layer. -/
theorem login_failure_messages_distinguishable
    (compare : String → String → Bool) (users : List User)
    (rawU rawP : String) (hU : (jsTrim rawU) ≠ "") (hP : rawP ≠ "") :
    (findUserByIdentifier users (escapeHtml (jsTrim rawU)) = none →
      postLogin compare users rawU rawP = .flashError "User not found") ∧
    (∀ u, findUserByIdentifier users (escapeHtml (jsTrim rawU)) = some u →
      compare rawP u.password = false →
      postLogin compare users rawU rawP = .flashError "Invalid password") ∧
    ("User not found" : String) ≠ "Invalid password" := by
  have herrs : loginValidationErrors rawU rawP = [] := by
    simp [loginValidationErrors, hU, hP]
  refine ⟨?_, ?_, by decide⟩
  · intro hfind
    simp [postLogin, herrs, localVerify, hfind]
  · intro u hfind hcmp
    simp [postLogin, herrs, localVerify, hfind, hcmp]

/-- Witness for the amended C1 theorem at a concrete input. -/
theorem login_failure_messages_distinguishable_witness :
    postLogin compareDemo db0.users "ghost" "x" = .flashError "User not found" :=
  (login_failure_messages_distinguishable compareDemo db0.users "ghost" "x"
    (by decide) (by decide)).1 (by decide)

/-! ### Claim C2 -/

/-- Claim C2: GET /get-the-code is registered with no authentication or
authorization middleware, renders the member promotion secret
(`MEMBER_SECRET_CODE`) into the page for every principal, and an
anonymous request receives exactly the same page as any other
requester. -/
theorem get_the_code_unauthenticated_access (cfg : Config)
    (principal : Option User) :
    (getTheCodeHandler cfg principal).memberCode = cfg.memberSecretCode ∧
    getTheCodeHandler cfg principal = getTheCodeHandler cfg none :=
  ⟨rfl, rfl⟩

/-! ### Claim C3 -/

/-- Claim C3 (counterexample): the POST /create-message validation
checks raw JavaScript falsiness, not emptiness after trimming.  A
whitespace-only title is empty after trimming, yet the request is not
rejected: the message is persisted with an empty title. -/
theorem create_message_whitespace_title_cex :
    jsTrim " " = "" ∧
    postCreateMessage db0 (some alice) (some " ") (some "hi") 0 =
      .success { users := [alice, bob, carol],
                 messages := [{ id := 1, title := "", content := "hi",
                                author_id := 1, created_at := 0 }],
                 nextUserId := 4, nextMessageId := 2 } :=
  ⟨rfl, rfl⟩

/-- Claim C3 (amended): for a member principal, POST /create-message
rejects with the validation message exactly when the raw title or text
field is absent or the empty string (JavaScript falsiness, checked
before any trimming — a whitespace-only field passes); on success the
message is appended with the trimmed fields and author equal to the
principal's identifier. -/
theorem create_message_raw_falsy_validation (db : DB) (user : User)
    (title text : Option String) (now : Nat) (hm : user.is_member = true) :
    (postCreateMessage db (some user) title text now =
        .renderError "Both title and message content are required."
      ↔ (title = none ∨ title = some "" ∨ text = none ∨ text = some "")) ∧
    (∀ db', postCreateMessage db (some user) title text now = .success db' →
      db'.messages = db.messages ++
        [{ id := db.nextMessageId, title := jsTrim (title.getD ""),
           content := jsTrim (text.getD ""), author_id := user.id,
           created_at := now }]) := by
  have hor : (jsFalsy title || jsFalsy text) = true ↔
      (title = none ∨ title = some "" ∨ text = none ∨ text = some "") := by
    cases title <;> cases text <;> simp [jsFalsy]
  constructor
  · rw [← hor]
    by_cases hcond : (jsFalsy title || jsFalsy text) = true
    · simp [postCreateMessage, hm, hcond]
    · simp [postCreateMessage, hm, hcond]
  · intro db' h
    by_cases hcond : (jsFalsy title || jsFalsy text) = true
    · simp [postCreateMessage, hm, hcond] at h
    · simp [postCreateMessage, hm, hcond] at h
      subst h
      rfl

/-- Witness for the amended C3 theorem at a concrete input. -/
theorem create_message_raw_falsy_validation_witness :
    postCreateMessage db0 (some alice) (some "") (some "x") 0 =
      .renderError "Both title and message content are required." :=
  ((create_message_raw_falsy_validation db0 alice (some "") (some "x") 0
    rfl).1).mpr (Or.inr (Or.inl rfl))

/-! ### Claim C4 -/

/-- Claim C4 (counterexample): an authenticated non-member POSTing to
/create-message receives a 403 forbidden body, not a redirect toward
/become-member. -/
theorem create_message_post_forbidden_cex :
    bob.is_member = false ∧
    postCreateMessage db0 (some bob) (some "t") (some "x") 0 =
      .forbidden "Only members can create messages." :=
  ⟨rfl, rfl⟩

/-- Claim C4 (amended): for an authenticated non-member, GET
/create-message redirects to /become-member with the explanatory flash
message, while POST /create-message responds 403 Forbidden; in both
cases no message is persisted. -/
theorem non_member_create_message_gate (db : DB) (u : User)
    (title text : Option String) (now : Nat) (h : u.is_member = false) :
    getCreateMessage (some u) =
      .redirectBecomeMember
        "You need to become a member first to create messages." ∧
    postCreateMessage db (some u) title text now =
      .forbidden "Only members can create messages." ∧
    (∀ db', postCreateMessage db (some u) title text now ≠ .success db') := by
  refine ⟨?_, ?_, ?_⟩
  · simp [getCreateMessage, h]
  · simp [postCreateMessage, h]
  · intro db' hc
    simp [postCreateMessage, h] at hc

/-- Witness for the amended C4 theorem at a concrete input. -/
theorem non_member_create_message_gate_witness :
    getCreateMessage (some bob) =
      .redirectBecomeMember
        "You need to become a member first to create messages." :=
  (non_member_create_message_gate db0 bob (some "t") (some "x") 0 rfl).1

/-! ### Claim C5 -/

/-- Claim C5: the admin-implies-member invariant is preserved by every
registration (the created row has `is_member = is_admin`) and by every
membership promotion (which only ever raises `is_member` to true). -/
theorem admin_implies_member_preserved (cfg : Config)
    (hash : String → String) (db : DB) (f : RegisterFields) (user : User)
    (code : Option String) (hinv : adminImpliesMember db) :
    adminImpliesMember (register cfg hash db f).2 ∧
    adminImpliesMember (becomeMember cfg db user code).2.1 := by
  constructor
  · by_cases hex :
        userExists db.users (jsTrim f.username) (jsTrim f.email) = true
    · simpa [register, hex] using hinv
    · simp only [register, hex, Bool.false_eq_true, if_false, if_neg]
      intro u hu hadm
      rcases List.mem_append.mp hu with hu | hu
      · exact hinv u hu hadm
      · simp only [List.mem_singleton] at hu
        subst hu
        simpa using hadm
  · rcases code with _ | raw
    · simpa [becomeMember] using hinv
    · by_cases h1 : jsTrim raw = ""
      · simpa [becomeMember, h1] using hinv
      · by_cases h2 : jsTrim raw = cfg.memberSecretCode
        · rw [becomeMember_success_eq cfg db user raw h1 h2]
          intro u hu hadm
          simp only [setMemberTrue, List.mem_map] at hu
          obtain ⟨v, hv, rfl⟩ := hu
          by_cases hid : (v.id == user.id) = true
          · simp [hid]
          · simp only [hid, Bool.false_eq_true, if_false] at hadm ⊢
            exact hinv v hv hadm
        · simpa [becomeMember, h1, h2] using hinv

/-- Witness for the C5 theorem at a concrete input. -/
theorem admin_implies_member_preserved_witness :
    adminImpliesMember (register cfg0 hashDemo db0 fAdmin).2 ∧
    adminImpliesMember (becomeMember cfg0 db0 bob (some "CODE")).2.1 :=
  admin_implies_member_preserved cfg0 hashDemo db0 fAdmin bob (some "CODE")
    (by unfold adminImpliesMember; decide)

/-! ### Claim C6 -/

/-- Claim C6: a registration attempt (with validator-normalized email)
whose trimmed username or email equals that of an existing user fails
with the conflict flash and leaves the store unchanged — no new user
row is created. -/
theorem register_conflict_on_duplicate (cfg : Config)
    (hash : String → String) (db : DB) (f : RegisterFields)
    (h : ∃ u ∈ db.users,
      u.username = jsTrim f.username ∨ u.email = jsTrim f.email) :
    register cfg hash db f =
      (.conflict "Username or email already exists. Please choose different ones.",
       db) := by
  have hex : userExists db.users (jsTrim f.username) (jsTrim f.email) = true := by
    obtain ⟨u, hu, hcase⟩ := h
    unfold userExists
    rw [List.any_eq_true]
    exact ⟨u, hu, by rcases hcase with h | h <;> simp [h]⟩
  simp [register, hex]

/-- Witness for the C6 theorem: re-registering alice's username. -/
theorem register_conflict_on_duplicate_witness :
    register cfg0 hashDemo db0 fDup =
      (.conflict "Username or email already exists. Please choose different ones.",
       db0) :=
  register_conflict_on_duplicate cfg0 hashDemo db0 fDup
    ⟨alice, by decide, Or.inl (by decide)⟩

/-! ### Claim C7 -/

/-- Claim C7: membership promotion is idempotent — for a principal
already a member (with every stored row of that id already a member),
promoting again with the correct code succeeds with no error and no
effect: the store and the session principal are returned unchanged. -/
theorem promotion_idempotent (cfg : Config) (db : DB) (user : User)
    (raw : String) (hmem : user.is_member = true)
    (hrows : ∀ u ∈ db.users, u.id = user.id → u.is_member = true)
    (hcode : jsTrim raw = cfg.memberSecretCode)
    (hne : cfg.memberSecretCode ≠ "") :
    becomeMember cfg db user (some raw) = (.success, db, user) := by
  simp [becomeMember, hcode, hne,
    setMemberTrue_noop db.users user.id hrows, setMember_self user hmem]

/-- Witness for the C7 theorem: promoting the already-member alice. -/
theorem promotion_idempotent_witness :
    becomeMember cfg0 db0 alice (some "CODE") = (.success, db0, alice) :=
  promotion_idempotent cfg0 db0 alice "CODE" rfl (by decide) (by decide)
    (by decide)

/-! ### Claim C8 -/

/-- Claim C8 (counterexample): the supplied promotion code IS
normalized (trimmed by the validator) before the comparison: the
supplied code `" CODE "` differs from the secret `"CODE"` as an exact
string, yet promotion succeeds rather than failing with IncorrectCode. -/
theorem promotion_code_trimmed_cex :
    (" CODE " : String) ≠ "CODE" ∧
    (becomeMember cfg0 db0 alice (some " CODE ")).1 = .success :=
  ⟨by decide, rfl⟩

/-- Claim C8 (amended): the validator trims the supplied code in place,
so promotion fails with IncorrectCode exactly when the trimmed supplied
code is nonempty and differs from the process-wide member secret; an
absent or whitespace-only code fails earlier with the validation
message. -/
theorem promotion_incorrect_code_iff (cfg : Config) (db : DB)
    (user : User) (raw : String) :
    ((becomeMember cfg db user (some raw)).1 =
        .incorrectCode "Incorrect passcode. Please try again."
      ↔ (jsTrim raw ≠ "" ∧ jsTrim raw ≠ cfg.memberSecretCode)) ∧
    (becomeMember cfg db user none).1 =
      .validationError "Passcode is required" := by
  constructor
  · by_cases h1 : jsTrim raw = ""
    · simp [becomeMember, h1]
    · by_cases h2 : jsTrim raw = cfg.memberSecretCode
      · rw [becomeMember_success_eq cfg db user raw h1 h2]
        simp [h2]
      · simp [becomeMember, h1, h2]
  · rfl

/-! ### Claim C9 -/

/-- Claim C9: POST /delete-message/:id for an admin fails softly — an
unparseable id flashes "Invalid message ID." with a redirect, a
parseable id naming no existing message flashes "Error deleting
message." with a redirect (the thrown Prisma error is caught); the
handler is a total function, never a crash.  A non-admin principal is
rejected with the 403 forbidden body. -/
theorem delete_message_soft_failure (db : DB) (u : User) (idParam : String)
    (hadm : u.is_admin = true) :
    (parseIntJS idParam = none →
      deleteMessage db (some u) idParam = .flashInvalidId "Invalid message ID.") ∧
    (∀ mid, parseIntJS idParam = some mid →
      (∀ m ∈ db.messages, (m.id : Int) ≠ mid) →
      deleteMessage db (some u) idParam =
        .flashDeleteError "Error deleting message.") ∧
    (∀ v : User, v.is_admin = false →
      deleteMessage db (some v) idParam =
        .forbidden "You are not authorized to delete messages.") := by
  refine ⟨?_, ?_, ?_⟩
  · intro hp
    simp [deleteMessage, hadm, hp]
  · intro mid hp hnone
    have hany : db.messages.any (fun m => (m.id : Int) == mid) = false := by
      rw [List.any_eq_false]
      intro m hm
      simpa using hnone m hm
    simp [deleteMessage, hadm, hp, hany]
  · intro v hv
    simp [deleteMessage, hv]

/-- Witness for the C9 theorem: the admin carol deletes the nonexistent
message id 42 — a soft flash-and-redirect failure. -/
theorem delete_message_soft_failure_witness :
    deleteMessage db0 (some carol) "42" =
      .flashDeleteError "Error deleting message." :=
  (delete_message_soft_failure db0 carol "42" rfl).2.1 42 (by decide)
    (by decide)

/-! ### Claim C10 -/

/-- Claim C10: the POST /login validator chain trims and HTML-entity-
escapes the submitted identifier in place before passport runs, so the
credential lookup compares `escapeHtml (jsTrim identifier)` against the
stored usernames and emails; whenever the trimmed identifier contains
an HTML-special character, the compared string differs from the raw
(trimmed) input. -/
theorem login_identifier_sanitized_lookup
    (compare : String → String → Bool) (users : List User)
    (rawU rawP : String) (hv : loginValidationErrors rawU rawP = [])
    (c : Char) (hc : c ∈ (jsTrim rawU).toList) (hs : isHtmlSpecial c = true) :
    (postLogin compare users rawU rawP =
      match localVerify compare users (escapeHtml (jsTrim rawU)) rawP with
      | .failure m => .flashError m
      | .success u => .success u) ∧
    escapeHtml (jsTrim rawU) ≠ jsTrim rawU := by
  constructor
  · simp [postLogin, hv]
  · exact escapeHtml_ne (jsTrim rawU) c hc hs

/-- Witness for the C10 theorem: the identifier `"a&b"` is compared in
escaped form. -/
theorem login_identifier_sanitized_lookup_witness :
    escapeHtml (jsTrim "a&b") ≠ jsTrim "a&b" :=
  (login_identifier_sanitized_lookup compareDemo db0.users "a&b" "Pw"
    (by decide) (Char.ofNat 38) (by decide) (by decide)).2

end TheInnerCircle
